import Mathlib

/-!
Verification development for the voo-vti-monitor repository.

The repository polls two close-price series, aligns them on shared timestamps,
computes a scale-normalized spread with a percentage, classifies the latest
point into an action tier, and publishes the result to a shared state read by a
dashboard.  Two implementations of the spread computation exist:
`compute_and_log` in voo_vti_monitor.py and the top-level script
voo_vti_spread.py.  Prices are modelled as exact rationals standing for the
Python floats, timestamps as natural-number ticks.
-/

namespace VooVti

/-- A price series fetched for one symbol: list of (timestamp, close price)
pairs, the model of a pandas Close column indexed by datetime. -/
abbrev Series := List (Nat × ℚ)

/-- Index lookup in a series: the price stored at timestamp `t`, if any
(first match, as in a pandas index join). -/
def lookupPrice (t : Nat) : Series → Option ℚ
  | [] => none
  | (u, p) :: rest => if u = t then some p else lookupPrice t rest

/-- Alignment of two close-price series on shared timestamps, as performed by
`pd.concat([s_a, s_b], axis=1).dropna()` at voo_vti_monitor.py lines 104-107
and voo_vti_spread.py lines 57-60: after the outer join, `dropna` keeps exactly
the rows whose timestamp carries a price in both series. -/
def align (a b : Series) : List (Nat × ℚ × ℚ) :=
  a.filterMap (fun p => (lookupPrice p.1 b).map (fun qb => (p.1, p.2, qb)))

/-- CONFIG["THRESHOLD_PCT"] of voo_vti_monitor.py line 33. -/
def THRESHOLD_PCT : ℚ := 15 / 100

/-- CONFIG["PRE_WARNING_PCT"] of voo_vti_monitor.py line 34. -/
def PRE_WARNING_PCT : ℚ := 10 / 100

/-- CONFIG["SYMBOL_A"] of voo_vti_monitor.py line 27. -/
def SYMBOL_A : String := "VOO"

/-- CONFIG["SYMBOL_B"] of voo_vti_monitor.py line 28. -/
def SYMBOL_B : String := "VTI"

/-- The five action bands of the spec's ActionTier enumeration. -/
inductive ActionTier
  | strongSell
  | approachingSell
  | neutral
  | approachingBuy
  | strongBuy
deriving DecidableEq, Repr

/-- The five-band classification rule of compute_and_log, voo_vti_monitor.py
lines 123-140, with the action strings of the branches abstracted to the
ActionTier names ("Strong Sell A / Buy B" is strongSell, and so on); the branch
order and the comparisons are exactly those of the if/elif chain, parametrised
by the two thresholds. -/
def classify (thr pre pct : ℚ) : ActionTier :=
  if pct ≥ thr then .strongSell
  else if pct ≥ pre then .approachingSell
  else if pct ≤ -thr then .strongBuy
  else if pct ≤ -pre then .approachingBuy
  else .neutral

/-- Lines 123-140 of voo_vti_monitor.py in full: the (action, color) strings
chosen for the latest point's spread_pct, together with the update of
state["last_strong_time"] performed inside the two strong branches (lines 127
and 134). -/
def determineAction (pct : ℚ) (now : Nat) (lastStrong : Option Nat) :
    String × String × Option Nat :=
  if pct ≥ THRESHOLD_PCT then
    ("Strong Sell " ++ SYMBOL_A ++ " / Buy " ++ SYMBOL_B, "darkred", some now)
  else if pct ≥ PRE_WARNING_PCT then
    ("Approaching Sell " ++ SYMBOL_A ++ " / Buy " ++ SYMBOL_B, "orange", lastStrong)
  else if pct ≤ -THRESHOLD_PCT then
    ("Strong Buy " ++ SYMBOL_A ++ " / Sell " ++ SYMBOL_B, "darkgreen", some now)
  else if pct ≤ -PRE_WARNING_PCT then
    ("Approaching Buy " ++ SYMBOL_A ++ " / Sell " ++ SYMBOL_B, "lightgreen", lastStrong)
  else ("Neutral", "yellow", lastStrong)

/-- The per-row colouring branch of the table loop, voo_vti_monitor.py lines
165-180: the (color_r, action_r) strings chosen for one row's spread_pct. -/
def rowColorAction (pct : ℚ) : String × String :=
  if pct ≥ THRESHOLD_PCT then
    ("darkred", "Strong Sell " ++ SYMBOL_A ++ " / Buy " ++ SYMBOL_B)
  else if pct ≥ PRE_WARNING_PCT then
    ("orange", "Approaching Sell " ++ SYMBOL_A ++ " / Buy " ++ SYMBOL_B)
  else if pct ≤ -THRESHOLD_PCT then
    ("darkgreen", "Strong Buy " ++ SYMBOL_A ++ " / Sell " ++ SYMBOL_B)
  else if pct ≤ -PRE_WARNING_PCT then
    ("lightgreen", "Approaching Buy " ++ SYMBOL_A ++ " / Sell " ++ SYMBOL_B)
  else ("yellow", "Neutral")

/-- One row of the computed spread frame: the columns of `combined` after
voo_vti_monitor.py lines 114-116 (equally, of `df` after voo_vti_spread.py
lines 71-77). -/
structure SpreadRow where
  ts : Nat
  priceA : ℚ
  priceB : ℚ
  bScaled : ℚ
  spread : ℚ
  spreadPct : ℚ
deriving DecidableEq, Repr

/-- A placeholder row used only as the default of `List.getLastD` on lists
proved nonempty. -/
def emptyRow : SpreadRow := ⟨0, 0, 0, 0, 0, 0⟩

/-- voo_vti_monitor.py line 113:
`float(combined.iloc[0][a_sym]) / float(combined.iloc[0][b_sym])` — the price
ratio at the FIRST (earliest) aligned row.  Python float division raises
ZeroDivisionError on a zero denominator, modelled as the error case (that
exception is caught by the handler at lines 193-194). -/
def monitorScaleFactor : List (Nat × ℚ × ℚ) → Except Unit ℚ
  | [] => .error ()
  | (_, pa, pb) :: _ => if pb = 0 then .error () else .ok (pa / pb)

/-- voo_vti_monitor.py lines 114-116: the B_scaled, spread and spread_pct
columns over the aligned window; spread_pct divides by the symbol-A price. -/
def monitorRows (sf : ℚ) (aligned : List (Nat × ℚ × ℚ)) : List SpreadRow :=
  aligned.map (fun p =>
    { ts := p.1, priceA := p.2.1, priceB := p.2.2,
      bScaled := p.2.2 * sf,
      spread := p.2.1 - p.2.2 * sf,
      spreadPct := (p.2.1 - p.2.2 * sf) / p.2.1 * 100 })

/-- voo_vti_spread.py line 70:
`scale_factor = df["VOO"].iloc[-1] / df["VTI"].iloc[-1]` — the price ratio at
the LAST (latest) aligned row; `none` models the IndexError on an empty frame. -/
def scriptScaleFactor (df : List (Nat × ℚ × ℚ)) : Option ℚ :=
  df.getLast?.map (fun p => p.2.1 / p.2.2)

/-- voo_vti_spread.py lines 71-77: the VTI_scaled, spread and spread_pct
columns; here spread_pct divides by the SCALED symbol-B price
(`df["spread"] / df["VTI_scaled"] * 100`), not by the symbol-A price. -/
def scriptRows (sf : ℚ) (df : List (Nat × ℚ × ℚ)) : List SpreadRow :=
  df.map (fun p =>
    { ts := p.1, priceA := p.2.1, priceB := p.2.2,
      bScaled := p.2.2 * sf,
      spread := p.2.1 - p.2.2 * sf,
      spreadPct := (p.2.1 - p.2.2 * sf) / (p.2.2 * sf) * 100 })

/-- DataFrame tail: the last `n` rows, as in `combined.tail(200)` at
voo_vti_monitor.py line 117. -/
def pdTail (n : Nat) (l : List α) : List α := l.drop (l.length - n)

/-- The log_row dict built at voo_vti_monitor.py lines 142-151: the latest
row's columns plus the chosen action and color strings. -/
structure LogRow where
  dt : Nat
  priceA : ℚ
  priceB : ℚ
  bScaled : ℚ
  spread : ℚ
  spreadPct : ℚ
  action : String
  color : String
deriving DecidableEq, Repr

/-- The mutable `state` dict of voo_vti_monitor.py lines 46-52, restricted to
the fields the compute cycle touches.  `df_tail` holds the rows_with_colors
list: each entry is (row, action string, color string). -/
structure MonitorState where
  last_row : Option LogRow
  last_strong_time : Option Nat
  df_tail : List (SpreadRow × String × String)
  shares : ℚ × ℚ
deriving DecidableEq, Repr

/-- voo_vti_monitor.py lines 163-183: the loop attaching a per-row action and
color to every row of the tail frame, building rows_with_colors. -/
def rowsWithColors (rows : List SpreadRow) : List (SpreadRow × String × String) :=
  rows.map (fun r =>
    (r, (rowColorAction r.spreadPct).2, (rowColorAction r.spreadPct).1))

/-- The body of compute_and_log, voo_vti_monitor.py lines 93-194, as a state
transition.  The external effects are parameters: `df_a`, `df_b` are the two
fetched series, `sharesRead` the result of read_vanguard_csv(), `now` the
clock.  CSV appending and printing are omitted (they do not touch `state`).
The early returns at lines 100-102 and 109-111 leave the state untouched, as
does the ZeroDivisionError raised at line 113 when the first aligned symbol-B
price is zero, because the except handler at lines 193-194 only prints; the
function always returns, so one failed cycle never stops later cycles. -/
def compute_and_log (df_a df_b : Series) (sharesRead : ℚ × ℚ) (now : Nat)
    (st : MonitorState) : MonitorState :=
  if df_a = [] ∨ df_b = [] then st
  else
    let combined := align df_a df_b
    if combined = [] then st
    else
      match monitorScaleFactor combined with
      | .error _ => st
      | .ok sf =>
        let df_tail := pdTail 200 (monitorRows sf combined)
        let latest := df_tail.getLastD emptyRow
        let adc := determineAction latest.spreadPct now st.last_strong_time
        let log_row : LogRow :=
          { dt := latest.ts, priceA := latest.priceA, priceB := latest.priceB,
            bScaled := latest.bScaled, spread := latest.spread,
            spreadPct := latest.spreadPct, action := adc.1, color := adc.2.1 }
        { last_row := some log_row, last_strong_time := adc.2.2,
          df_tail := rowsWithColors df_tail, shares := sharesRead }

/-- The loop of get_minute_data, voo_vti_monitor.py lines 66-70: try each
interval in order, returning the first non-empty frame, else an empty frame. -/
def tryIntervals (fetchSafe : String → Series) : List String → Series
  | [] => []
  | iv :: rest =>
    let df := fetchSafe iv
    if df = [] then tryIntervals fetchSafe rest else df

/-- get_minute_data, voo_vti_monitor.py lines 65-70: attempt the primary
interval, then each fallback in the given order, through fetch_interval_safe —
modelled by the total function `fetchSafe`, faithful because
fetch_interval_safe (lines 55-63) catches every exception and returns an empty
frame.  Returns the first non-empty result, or an empty frame when every
interval is empty; it never raises. -/
def get_minute_data (fetchSafe : String → String → Series)
    (symbol primary : String) (fallbacks : List String) : Series :=
  tryIntervals (fetchSafe symbol) (primary :: fallbacks)

/-- download_close_series, voo_vti_spread.py lines 17-45: the primary interval
at the given period, then a hardcoded 5m fallback at the same period, then a
hardcoded 1d fallback at period 30d; when all three are empty it raises
`ValueError("❌ No usable data for {symbol} at any interval.")`, modelled as
the error case.  `dl` models yf.download returning the Close column. -/
def download_close_series (dl : String → String → String → Series)
    (symbol period interval : String) : Except String Series :=
  let data := dl symbol period interval
  let data2 := if data = [] then dl symbol period "5m" else data
  let data3 := if data2 = [] then dl symbol "30d" "1d" else data2
  if data3 = [] then
    .error ("No usable data for " ++ symbol ++ " at any interval.")
  else .ok data3

/-- The shared `state` dict as seen by a reader, restricted to the fields the
claim about atomic publication concerns (the dashboard handler at
voo_vti_monitor.py lines 233-238 reads them while holding the module lock). -/
structure SharedView where
  last_row : Option LogRow
  last_strong_time : Option Nat
  df_tail : List (SpreadRow × String × String)
deriving DecidableEq, Repr

/-- The writes a strong-classification cycle performs on the shared state, each
atomic with respect to a reader holding the lock: the first step is the
assignment `state["last_strong_time"] = datetime.now()` at voo_vti_monitor.py
line 127 (or 134), executed OUTSIDE the `with lock` block; the second step is
the locked block at lines 186-188 assigning last_row and df_tail, which a
reader that also takes the lock (lines 233-238) can never split. -/
def strongCycleSteps (now : Nat) (newRow : LogRow)
    (newTail : List (SpreadRow × String × String)) :
    List (SharedView → SharedView) :=
  [fun s => { s with last_strong_time := some now },
   fun s => { s with last_row := some newRow, df_tail := newTail }]

/-- Every state a concurrent locked reader can observe while a cycle's write
steps execute: the state before any step, between consecutive steps, and after
the last step. -/
def observable (steps : List (SharedView → SharedView)) (s0 : SharedView) :
    List SharedView :=
  List.scanl (fun s f => f s) s0 steps

/-! ## Theorems -/

/-- C1: the claim says both implementations derive the scale factor from the
EARLIEST aligned sample.  Counterexample: on the aligned window built from
series_a = [(t1,100),(t2,101)] and series_b = [(t1,50),(t2,49)], the
voo_vti_spread.py implementation (line 70, `iloc[-1]`) yields 101/49, which is
not the earliest-sample ratio 100/50. -/
theorem C1_counterexample :
    scriptScaleFactor (align [(1, 100), (2, 101)] [(1, 50), (2, 49)]) =
      some (101 / 49) ∧
    (101 / 49 : ℚ) ≠ 100 / 50 := by
  constructor
  · rfl
  · norm_num

/-- C1 amended: for a non-empty aligned window, compute_and_log
(voo_vti_monitor.py line 113) derives the scale factor as price_a / price_b at
the EARLIEST aligned sample — a pure function of the current window alone, so
it is recomputed each cycle and never carried over — while voo_vti_spread.py
line 70 derives it at the LATEST aligned sample. -/
theorem C1_scale_factor (hd : Nat × ℚ × ℚ) (rest : List (Nat × ℚ × ℚ))
    (hb : hd.2.2 ≠ 0) :
    monitorScaleFactor (hd :: rest) = .ok (hd.2.1 / hd.2.2) ∧
    scriptScaleFactor (hd :: rest) =
      some (((hd :: rest).getLast (List.cons_ne_nil hd rest)).2.1 /
            ((hd :: rest).getLast (List.cons_ne_nil hd rest)).2.2) := by
  constructor
  · simp [monitorScaleFactor, hb]
  · simp [scriptScaleFactor, List.getLast?_eq_getLast]

/-- Witness for C1_scale_factor at the concrete window
[(1,100,50),(2,101,49)]. -/
theorem C1_scale_factor_witness :
    monitorScaleFactor ((1, 100, 50) :: [(2, 101, 49)]) = .ok (100 / 50) ∧
    scriptScaleFactor ((1, 100, 50) :: [(2, 101, 49)]) =
      some ((((1, (100 : ℚ), (50 : ℚ)) :: [(2, 101, 49)]).getLast
              (List.cons_ne_nil _ _)).2.1 /
            (((1, (100 : ℚ), (50 : ℚ)) :: [(2, 101, 49)]).getLast
              (List.cons_ne_nil _ _)).2.2) :=
  C1_scale_factor (1, 100, 50) [(2, 101, 49)] (by norm_num)

/-- C2: the claim says both implementations compute
spread_pct = spread / price_a × 100.  Counterexample: running the
voo_vti_spread.py pipeline (scale factor from the last row, spread_pct =
spread / VTI_scaled × 100 at line 77) on the aligned window from
series_a = [(1,100),(2,101)], series_b = [(1,50),(2,49)], the first row gets
spread_pct = −300/101, while spread / price_a × 100 would be −150/49. -/
theorem C2_counterexample :
    (((scriptRows
        ((scriptScaleFactor (align [(1, 100), (2, 101)] [(1, 50), (2, 49)])).getD 0)
        (align [(1, 100), (2, 101)] [(1, 50), (2, 49)])).headD emptyRow).spreadPct =
      -300 / 101) ∧
    (((scriptRows
        ((scriptScaleFactor (align [(1, 100), (2, 101)] [(1, 50), (2, 49)])).getD 0)
        (align [(1, 100), (2, 101)] [(1, 50), (2, 49)])).headD emptyRow).spread /
      ((scriptRows
        ((scriptScaleFactor (align [(1, 100), (2, 101)] [(1, 50), (2, 49)])).getD 0)
        (align [(1, 100), (2, 101)] [(1, 50), (2, 49)])).headD emptyRow).priceA * 100 =
      -150 / 49) ∧
    (-300 / 101 : ℚ) ≠ -150 / 49 := by
  refine ⟨?_, ?_, by norm_num⟩
  · show (100 - 50 * ((101 : ℚ) / 49)) / (50 * ((101 : ℚ) / 49)) * 100 = -300 / 101
    norm_num
  · show (100 - 50 * ((101 : ℚ) / 49)) / 100 * 100 = -150 / 49
    norm_num

/-- C2 amended: in every aligned row, spread = price_a − scaled_price_b in both
implementations, and spread_pct is spread / price_a × 100 in compute_and_log
(voo_vti_monitor.py line 116) but spread / scaled_price_b × 100 in
voo_vti_spread.py (line 77). -/
theorem C2_spread_pct (sf : ℚ) (aligned : List (Nat × ℚ × ℚ)) :
    (∀ r ∈ monitorRows sf aligned,
        r.spread = r.priceA - r.bScaled ∧
        r.spreadPct = r.spread / r.priceA * 100) ∧
    (∀ r ∈ scriptRows sf aligned,
        r.spread = r.priceA - r.bScaled ∧
        r.spreadPct = r.spread / r.bScaled * 100) := by
  constructor
  · intro r hr
    simp only [monitorRows, List.mem_map] at hr
    obtain ⟨p, _, rfl⟩ := hr
    exact ⟨rfl, rfl⟩
  · intro r hr
    simp only [scriptRows, List.mem_map] at hr
    obtain ⟨p, _, rfl⟩ := hr
    exact ⟨rfl, rfl⟩

/-- Witness for C2_spread_pct on the one-row window [(1,100,50)] with scale
factor 2. -/
theorem C2_spread_pct_witness :
    (⟨1, 100, 50, 50 * 2, 100 - 50 * 2, (100 - 50 * 2) / 100 * 100⟩ : SpreadRow).spread =
      (⟨1, 100, 50, 50 * 2, 100 - 50 * 2, (100 - 50 * 2) / 100 * 100⟩ : SpreadRow).priceA -
        (⟨1, 100, 50, 50 * 2, 100 - 50 * 2, (100 - 50 * 2) / 100 * 100⟩ : SpreadRow).bScaled ∧
    (⟨1, 100, 50, 50 * 2, 100 - 50 * 2, (100 - 50 * 2) / 100 * 100⟩ : SpreadRow).spreadPct =
      (⟨1, 100, 50, 50 * 2, 100 - 50 * 2, (100 - 50 * 2) / 100 * 100⟩ : SpreadRow).spread /
        (⟨1, 100, 50, 50 * 2, 100 - 50 * 2, (100 - 50 * 2) / 100 * 100⟩ : SpreadRow).priceA * 100 :=
  (C2_spread_pct 2 [(1, 100, 50)]).1
    ⟨1, 100, 50, 50 * 2, 100 - 50 * 2, (100 - 50 * 2) / 100 * 100⟩
    (List.mem_singleton.mpr rfl)

/-- C3: for thresholds with strong_threshold > pre_warning_threshold > 0, the
if/elif chain of compute_and_log assigns exactly one tier to every spread_pct
value, and — the strong comparison being checked before the pre-warning one —
a value exactly equal to the strong threshold (or to its negation) classifies
as Strong, not Approaching. -/
theorem C3_classification (thr pre : ℚ) (hpre : 0 < pre) (hlt : pre < thr) :
    (∀ pct : ℚ, ∃! t : ActionTier, classify thr pre pct = t) ∧
    classify thr pre thr = .strongSell ∧
    classify thr pre (-thr) = .strongBuy := by
  refine ⟨fun pct => ⟨classify thr pre pct, rfl, fun t ht => ht.symm⟩, ?_, ?_⟩
  · simp [classify]
  · have h1 : ¬ (-thr ≥ thr) := by linarith
    have h2 : ¬ (-thr ≥ pre) := by linarith
    simp [classify, h1, h2]

/-- Witness for C3_classification at the CONFIG thresholds 0.15 and 0.10. -/
theorem C3_classification_witness :
    (∀ pct : ℚ, ∃! t : ActionTier, classify (15 / 100) (10 / 100) pct = t) ∧
    classify (15 / 100) (10 / 100) (15 / 100) = .strongSell ∧
    classify (15 / 100) (10 / 100) (-(15 / 100)) = .strongBuy :=
  C3_classification (15 / 100) (10 / 100) (by norm_num) (by norm_num)

/-- The get_minute_data loop returns the first non-empty frame among the
attempted intervals, in the order given, and an empty frame when all are
empty. -/
theorem tryIntervals_eq (f : String → Series) (l : List String) :
    tryIntervals f l = ((l.map f).filter (fun s => s ≠ [])).headD [] := by
  induction l with
  | nil => rfl
  | cons iv rest ih =>
    by_cases h : f iv = []
    · simp [tryIntervals, h, ih]
    · simp [tryIntervals, h]

/-- C4: the claim says fetch returns an explicit empty result, never raising,
when the primary and all fallbacks are empty.  Counterexample: with a provider
yielding no data at any granularity, download_close_series
(voo_vti_spread.py line 43) raises ValueError instead of returning empty. -/
theorem C4_counterexample :
    download_close_series (fun _ _ _ => []) "VOO" "7d" "1m" =
      .error "No usable data for VOO at any interval." := rfl

/-- C4 amended: both fetchers attempt the primary granularity first and each
fallback in order and return the first non-empty result, but only
get_minute_data returns an explicit empty result when every granularity is
empty — download_close_series instead raises ValueError in that case. -/
theorem C4_fetch_fallback (fetchSafe : String → String → Series)
    (dl : String → String → String → Series)
    (symbol sym2 primary period interval : String) (fallbacks : List String) :
    (get_minute_data fetchSafe symbol primary fallbacks =
      (((primary :: fallbacks).map (fetchSafe symbol)).filter
        (fun s => s ≠ [])).headD []) ∧
    ((∀ iv ∈ primary :: fallbacks, fetchSafe symbol iv = []) →
      get_minute_data fetchSafe symbol primary fallbacks = []) ∧
    (dl sym2 period interval ≠ [] →
      download_close_series dl sym2 period interval =
        .ok (dl sym2 period interval)) ∧
    (dl sym2 period interval = [] → dl sym2 period "5m" ≠ [] →
      download_close_series dl sym2 period interval =
        .ok (dl sym2 period "5m")) ∧
    (dl sym2 period interval = [] → dl sym2 period "5m" = [] →
        dl sym2 "30d" "1d" ≠ [] →
      download_close_series dl sym2 period interval =
        .ok (dl sym2 "30d" "1d")) ∧
    (dl sym2 period interval = [] → dl sym2 period "5m" = [] →
        dl sym2 "30d" "1d" = [] →
      download_close_series dl sym2 period interval =
        .error ("No usable data for " ++ sym2 ++ " at any interval.")) := by
  refine ⟨tryIntervals_eq _ _, ?_, ?_, ?_, ?_, ?_⟩
  · intro hall
    rw [get_minute_data, tryIntervals_eq]
    have hfil : ((primary :: fallbacks).map (fetchSafe symbol)).filter
        (fun s => s ≠ []) = [] := by
      rw [List.filter_eq_nil_iff]
      intro s hs
      simp only [List.mem_map] at hs
      obtain ⟨iv, hiv, rfl⟩ := hs
      simp [hall iv hiv]
    rw [hfil]
    rfl
  · intro h1
    simp [download_close_series, h1]
  · intro h1 h2
    simp [download_close_series, h1, h2]
  · intro h1 h2 h3
    simp [download_close_series, h1, h2, h3]
  · intro h1 h2 h3
    simp [download_close_series, h1, h2, h3]

/-- Witness for C4_fetch_fallback: a provider empty at 1m but non-empty at 5m
makes download_close_series return the 5m data. -/
theorem C4_fetch_fallback_witness :
    download_close_series (fun _ _ iv => if iv = "5m" then [(1, 5)] else [])
      "VOO" "7d" "1m" =
      .ok ((fun _ _ iv => if iv = "5m" then [(1, 5)] else []) "VOO" "7d" "5m") :=
  (C4_fetch_fallback (fun _ _ => [])
      (fun _ _ iv => if iv = "5m" then [(1, 5)] else [])
      "VOO" "VOO" "1m" "7d" "1m" []).2.2.2.1 (by simp) (by simp)

/-- C5: a cycle whose two fetched series have an empty timestamp intersection
(in particular when either series is empty, since then the intersection is
empty too) returns at voo_vti_monitor.py line 102 or 111, before any
assignment into `state`: the prior last_row (Snapshot), df_tail
(RecentWindow), last_strong_time and shares are all retained unchanged. -/
theorem C5_nodata_skip (df_a df_b : Series) (sharesRead : ℚ × ℚ) (now : Nat)
    (st : MonitorState) (h : align df_a df_b = []) :
    compute_and_log df_a df_b sharesRead now st = st := by
  unfold compute_and_log
  split
  · rfl
  · simp [h]

/-- Witness for C5_nodata_skip: series_a has only t1, series_b has only t2. -/
theorem C5_nodata_skip_witness :
    compute_and_log [(1, 100)] [(2, 50)] (0, 0) 7
      { last_row := none, last_strong_time := some 3, df_tail := [],
        shares := (1, 2) } =
      { last_row := none, last_strong_time := some 3, df_tail := [],
        shares := (1, 2) } :=
  C5_nodata_skip [(1, 100)] [(2, 50)] (0, 0) 7
    { last_row := none, last_strong_time := some 3, df_tail := [],
      shares := (1, 2) } rfl

/-- C6: when the first aligned symbol-B price is zero, the division at
voo_vti_monitor.py line 113 raises ZeroDivisionError, caught at lines 193-194;
the cycle produces no scale factor, nothing (in particular no infinite or NaN
value) reaches last_row or df_tail, the prior state is fully retained, and
compute_and_log still returns, so future scheduler cycles keep running. -/
theorem C6_zero_denominator (df_a df_b : Series) (sharesRead : ℚ × ℚ)
    (now : Nat) (st : MonitorState) (hd : Nat × ℚ × ℚ)
    (rest : List (Nat × ℚ × ℚ)) (hal : align df_a df_b = hd :: rest)
    (hz : hd.2.2 = 0) :
    compute_and_log df_a df_b sharesRead now st = st := by
  obtain ⟨t, pa, pb⟩ := hd
  have hz' : pb = 0 := hz
  subst hz'
  unfold compute_and_log
  split
  · rfl
  · rw [hal]
    simp [monitorScaleFactor]

/-- Witness for C6_zero_denominator: series_b's price at the only shared
timestamp is zero. -/
theorem C6_zero_denominator_witness :
    compute_and_log [(1, 100)] [(1, 0)] (0, 0) 7
      { last_row := none, last_strong_time := none, df_tail := [],
        shares := (0, 0) } =
      { last_row := none, last_strong_time := none, df_tail := [],
        shares := (0, 0) } :=
  C6_zero_denominator [(1, 100)] [(1, 0)] (0, 0) 7
    { last_row := none, last_strong_time := none, df_tail := [],
      shares := (0, 0) } (1, 100, 0) [] rfl rfl

/-- A lookup in a series succeeds exactly when the timestamp is one of the
series' timestamps. -/
theorem lookupPrice_isSome_iff (t : Nat) (b : Series) :
    (lookupPrice t b).isSome ↔ t ∈ b.map Prod.fst := by
  induction b with
  | nil => simp [lookupPrice]
  | cons p rest ih =>
    obtain ⟨u, q⟩ := p
    by_cases h : u = t
    · subst h
      simp [lookupPrice]
    · rw [List.map_cons]
      simp only [lookupPrice, if_neg h, List.mem_cons]
      rw [ih]
      constructor
      · exact fun hmem => Or.inr hmem
      · rintro (rfl | hmem)
        · exact absurd rfl h
        · exact hmem

/-- A successful lookup returns a (timestamp, price) pair of the series. -/
theorem lookupPrice_mem (t : Nat) (b : Series) (q : ℚ)
    (h : lookupPrice t b = some q) : (t, q) ∈ b := by
  induction b with
  | nil => simp [lookupPrice] at h
  | cons p rest ih =>
    obtain ⟨u, r⟩ := p
    by_cases hu : u = t
    · subst hu
      rw [show lookupPrice u ((u, r) :: rest) = some r from by simp [lookupPrice]]
        at h
      injection h with h
      subst h
      exact List.mem_cons_self _ _
    · simp only [lookupPrice, if_neg hu] at h
      exact List.mem_cons_of_mem _ (ih h)

/-- Aligning against an empty series yields the empty window. -/
theorem align_nil_right (a : Series) : align a [] = [] := by
  induction a with
  | nil => rfl
  | cons p rest ih =>
    simp only [align, List.filterMap_cons, lookupPrice, Option.map_none'] at ih ⊢
    exact ih

/-- The tail of a non-empty list is non-empty when `n` is positive. -/
theorem pdTail_ne_nil (n : Nat) (hn : 0 < n) (l : List α) (hl : l ≠ []) :
    pdTail n l ≠ [] := by
  intro h
  have hlen := congrArg List.length h
  simp only [pdTail, List.length_drop, List.length_nil] at hlen
  have hpos : 0 < l.length := List.length_pos.mpr hl
  omega

/-- The last element of a mapped list is the image of the last element. -/
theorem getLastD_map (f : α → β) (l : List α) (hl : l ≠ []) (d : α) (d' : β) :
    (l.map f).getLastD d' = f (l.getLastD d) := by
  cases h : l.getLast? with
  | none => exact absurd (List.getLast?_eq_none_iff.mp h) hl
  | some a =>
    rw [List.getLastD_eq_getLast?, List.getLast?_map, h,
      List.getLastD_eq_getLast?, h]
    rfl

/-- The per-row colouring branch (voo_vti_monitor.py lines 165-180) picks
exactly the colour and action string the latest-point branch (lines 123-140)
picks for the same spread_pct: the two if/elif chains implement the same
five-band rule with the same thresholds. -/
theorem rowColorAction_eq_determineAction (pct : ℚ) (now : Nat)
    (ls : Option Nat) :
    rowColorAction pct =
      ((determineAction pct now ls).2.1, (determineAction pct now ls).1) := by
  unfold rowColorAction determineAction
  split_ifs <;> rfl

/-- Unfolding of the successful path of compute_and_log: both fetches
non-empty, non-empty intersection, and a scale factor that divided without
error. -/
theorem compute_and_log_ok (df_a df_b : Series) (sharesRead : ℚ × ℚ)
    (now : Nat) (st : MonitorState) (sf : ℚ) (ha : df_a ≠ []) (hb : df_b ≠ [])
    (hcne : align df_a df_b ≠ [])
    (hsf : monitorScaleFactor (align df_a df_b) = .ok sf) :
    compute_and_log df_a df_b sharesRead now st =
      { last_row := some
          { dt := ((pdTail 200 (monitorRows sf (align df_a df_b))).getLastD
              emptyRow).ts,
            priceA := ((pdTail 200 (monitorRows sf (align df_a df_b))).getLastD
              emptyRow).priceA,
            priceB := ((pdTail 200 (monitorRows sf (align df_a df_b))).getLastD
              emptyRow).priceB,
            bScaled := ((pdTail 200 (monitorRows sf (align df_a df_b))).getLastD
              emptyRow).bScaled,
            spread := ((pdTail 200 (monitorRows sf (align df_a df_b))).getLastD
              emptyRow).spread,
            spreadPct := ((pdTail 200 (monitorRows sf (align df_a df_b))).getLastD
              emptyRow).spreadPct,
            action := (determineAction
              ((pdTail 200 (monitorRows sf (align df_a df_b))).getLastD
                emptyRow).spreadPct now st.last_strong_time).1,
            color := (determineAction
              ((pdTail 200 (monitorRows sf (align df_a df_b))).getLastD
                emptyRow).spreadPct now st.last_strong_time).2.1 },
        last_strong_time := (determineAction
          ((pdTail 200 (monitorRows sf (align df_a df_b))).getLastD
            emptyRow).spreadPct now st.last_strong_time).2.2,
        df_tail := rowsWithColors (pdTail 200 (monitorRows sf (align df_a df_b))),
        shares := sharesRead } := by
  unfold compute_and_log
  rw [if_neg (show ¬(df_a = [] ∨ df_b = []) from by simp [ha, hb])]
  simp only []
  rw [if_neg hcne, hsf]

/-- C7: the claim says the Snapshot/RecentWindow pair INCLUDING the
last-strong-classification timestamp is replaced by publish as one atomic
unit.  Counterexample: the assignment `state["last_strong_time"] =
datetime.now()` at voo_vti_monitor.py line 127 (and 134) runs OUTSIDE the
`with lock` block of lines 186-189, so a locked reader scheduled between that
assignment and the locked publish observes the NEW last-strong timestamp next
to the OLD last_row — the triple is not replaced atomically. -/
theorem C7_counterexample :
    (⟨some ⟨1, 100, 50, 100, 0, 0, "Neutral", "yellow"⟩, some 7, []⟩ :
        SharedView) ∈
      observable
        (strongCycleSteps 7
          ⟨2, 101, 49, 98, 3, 3, "Strong Sell VOO / Buy VTI", "darkred"⟩ [])
        ⟨some ⟨1, 100, 50, 100, 0, 0, "Neutral", "yellow"⟩, none, []⟩ ∧
    (⟨some ⟨1, 100, 50, 100, 0, 0, "Neutral", "yellow"⟩, some 7, []⟩ :
        SharedView).last_strong_time = some 7 ∧
    (⟨some ⟨1, 100, 50, 100, 0, 0, "Neutral", "yellow"⟩, some 7, []⟩ :
        SharedView).last_row =
      some ⟨1, 100, 50, 100, 0, 0, "Neutral", "yellow"⟩ ∧
    some (⟨1, 100, 50, 100, 0, 0, "Neutral", "yellow"⟩ : LogRow) ≠
      some (⟨2, 101, 49, 98, 3, 3, "Strong Sell VOO / Buy VTI",
        "darkred"⟩ : LogRow) := by
  refine ⟨?_, rfl, rfl, ?_⟩
  · rw [show observable
        (strongCycleSteps 7
          ⟨2, 101, 49, 98, 3, 3, "Strong Sell VOO / Buy VTI", "darkred"⟩ [])
        ⟨some ⟨1, 100, 50, 100, 0, 0, "Neutral", "yellow"⟩, none, []⟩ =
      [⟨some ⟨1, 100, 50, 100, 0, 0, "Neutral", "yellow"⟩, none, []⟩,
       ⟨some ⟨1, 100, 50, 100, 0, 0, "Neutral", "yellow"⟩, some 7, []⟩,
       ⟨some ⟨2, 101, 49, 98, 3, 3, "Strong Sell VOO / Buy VTI", "darkred"⟩,
        some 7, []⟩] from rfl]
    simp
  · simp only [ne_eq, Option.some.injEq, LogRow.mk.injEq]
    intro h
    exact absurd h.1 (by norm_num)

/-- C7 amended: the Snapshot/RecentWindow pair itself (last_row and df_tail)
IS replaced as one atomic unit — every state a locked reader can observe
carries either the old pair or the new pair, never a mixture, so no observed
Snapshot has action/color fields inconsistent with its spread_pct — but the
last-strong timestamp is updated outside the lock and can be observed updated
before the pair is. -/
theorem C7_atomic_pair (now : Nat) (newRow : LogRow)
    (newTail : List (SpreadRow × String × String)) (s0 : SharedView) :
    ∀ s ∈ observable (strongCycleSteps now newRow newTail) s0,
      (s.last_row = s0.last_row ∧ s.df_tail = s0.df_tail) ∨
      (s.last_row = some newRow ∧ s.df_tail = newTail) := by
  intro s hs
  rw [show observable (strongCycleSteps now newRow newTail) s0 =
      [s0, { s0 with last_strong_time := some now },
       { last_row := some newRow, last_strong_time := some now,
         df_tail := newTail }] from rfl] at hs
  simp only [List.mem_cons, List.not_mem_nil, or_false] at hs
  rcases hs with rfl | rfl | rfl
  · exact Or.inl ⟨rfl, rfl⟩
  · exact Or.inl ⟨rfl, rfl⟩
  · exact Or.inr ⟨rfl, rfl⟩

/-- Witness for C7_atomic_pair: the mid-publish observation of the
counterexample scenario still carries the intact old pair. -/
theorem C7_atomic_pair_witness :
    ((⟨some ⟨1, 100, 50, 100, 0, 0, "Neutral", "yellow"⟩, some 7, []⟩ :
        SharedView).last_row =
      (⟨some ⟨1, 100, 50, 100, 0, 0, "Neutral", "yellow"⟩, none, []⟩ :
        SharedView).last_row ∧
     (⟨some ⟨1, 100, 50, 100, 0, 0, "Neutral", "yellow"⟩, some 7, []⟩ :
        SharedView).df_tail =
      (⟨some ⟨1, 100, 50, 100, 0, 0, "Neutral", "yellow"⟩, none, []⟩ :
        SharedView).df_tail) ∨
    ((⟨some ⟨1, 100, 50, 100, 0, 0, "Neutral", "yellow"⟩, some 7, []⟩ :
        SharedView).last_row =
      some ⟨2, 101, 49, 98, 3, 3, "Strong Sell VOO / Buy VTI", "darkred"⟩ ∧
     (⟨some ⟨1, 100, 50, 100, 0, 0, "Neutral", "yellow"⟩, some 7, []⟩ :
        SharedView).df_tail = []) :=
  C7_atomic_pair 7
    ⟨2, 101, 49, 98, 3, 3, "Strong Sell VOO / Buy VTI", "darkred"⟩ []
    ⟨some ⟨1, 100, 50, 100, 0, 0, "Neutral", "yellow"⟩, none, []⟩
    ⟨some ⟨1, 100, 50, 100, 0, 0, "Neutral", "yellow"⟩, some 7, []⟩ (by
      rw [show observable
          (strongCycleSteps 7
            ⟨2, 101, 49, 98, 3, 3, "Strong Sell VOO / Buy VTI", "darkred"⟩ [])
          ⟨some ⟨1, 100, 50, 100, 0, 0, "Neutral", "yellow"⟩, none, []⟩ =
        [⟨some ⟨1, 100, 50, 100, 0, 0, "Neutral", "yellow"⟩, none, []⟩,
         ⟨some ⟨1, 100, 50, 100, 0, 0, "Neutral", "yellow"⟩, some 7, []⟩,
         ⟨some ⟨2, 101, 49, 98, 3, 3, "Strong Sell VOO / Buy VTI", "darkred"⟩,
          some 7, []⟩] from rfl]
      simp)

/-- C8: the aligned window's timestamp set is exactly the intersection of the
two input series' timestamp sets, and every aligned row's prices are taken
verbatim from the inputs — no extrapolated, interpolated or synthetically
filled point appears. -/
theorem C8_alignment (a b : Series) :
    (∀ t : Nat, t ∈ (align a b).map (fun r => r.1) ↔
        t ∈ a.map Prod.fst ∧ t ∈ b.map Prod.fst) ∧
    (∀ r ∈ align a b, (r.1, r.2.1) ∈ a ∧ (r.1, r.2.2) ∈ b) := by
  constructor
  · intro t
    constructor
    · intro ht
      simp only [List.mem_map, align, List.mem_filterMap,
        Option.map_eq_some'] at ht
      obtain ⟨r, ⟨p, hpa, qb, hlk, hfr⟩, hr1⟩ := ht
      subst hfr
      subst hr1
      refine ⟨List.mem_map_of_mem Prod.fst hpa, ?_⟩
      rw [← lookupPrice_isSome_iff, hlk]
      rfl
    · rintro ⟨hta, htb⟩
      simp only [List.mem_map] at hta
      obtain ⟨p, hpa, hp1⟩ := hta
      rw [← lookupPrice_isSome_iff] at htb
      obtain ⟨qb, hqb⟩ := Option.isSome_iff_exists.mp htb
      simp only [List.mem_map, align, List.mem_filterMap, Option.map_eq_some']
      refine ⟨(t, p.2, qb), ⟨p, hpa, qb, ?_, ?_⟩, rfl⟩
      · rw [hp1]
        exact hqb
      · rw [hp1]
  · intro r hr
    simp only [align, List.mem_filterMap, Option.map_eq_some'] at hr
    obtain ⟨p, hpa, qb, hlk, hfr⟩ := hr
    subst hfr
    exact ⟨hpa, lookupPrice_mem _ _ _ hlk⟩

/-- Witness for C8_alignment: the single aligned row of the one-point overlap
is made of prices present verbatim in the inputs. -/
theorem C8_alignment_witness :
    ((1 : Nat), (100 : ℚ)) ∈ [((1 : Nat), (100 : ℚ))] ∧
    ((1 : Nat), (50 : ℚ)) ∈ [((1 : Nat), (50 : ℚ))] :=
  (C8_alignment [(1, 100)] [(1, 50)]).2 (1, 100, 50)
    (List.mem_singleton.mpr rfl)

/-- C9: the concrete scenario.  On series_a = [(t1,100),(t2,101)] and
series_b = [(t1,50),(t2,49)], the monitor pipeline yields scale_factor =
100/50 = 2; the latest (t2) row has scaled_b = 98, spread = 3 and spread_pct =
300/101 (about 2.970); and the classification rule at the CONFIG thresholds
0.15/0.10 assigns StrongSell, since 300/101 ≥ 0.15. -/
theorem C9_concrete_scenario :
    monitorScaleFactor (align [(1, 100), (2, 101)] [(1, 50), (2, 49)]) =
      .ok (100 / 50) ∧
    (100 / 50 : ℚ) = 2 ∧
    (monitorRows (100 / 50)
        (align [(1, 100), (2, 101)] [(1, 50), (2, 49)])).getLastD emptyRow =
      { ts := 2, priceA := 101, priceB := 49, bScaled := 98, spread := 3,
        spreadPct := 300 / 101 } ∧
    classify THRESHOLD_PCT PRE_WARNING_PCT (300 / 101) = .strongSell := by
  refine ⟨rfl, by norm_num, ?_, ?_⟩
  · show (SpreadRow.mk 2 101 49 (49 * ((100 : ℚ) / 50)) (101 - 49 * ((100 : ℚ) / 50)) (((101 : ℚ) - 49 * (100 / 50)) / 101 * 100)) = _
    norm_num [SpreadRow.mk.injEq]
  · unfold classify
    rw [if_pos (show (300 : ℚ) / 101 ≥ THRESHOLD_PCT from by
      rw [THRESHOLD_PCT]; norm_num)]

/-- C10: the per-row colouring loop (voo_vti_monitor.py lines 163-183) assigns
to every row exactly the colour and action the latest-point branch (lines
123-140) would assign to the same spread_pct — the two paths implement one
five-band rule with the same thresholds — and consequently, on every
successful cycle, the last row of the published table carries the same action
string as the published Snapshot. -/
theorem C10_row_action_matches_snapshot :
    (∀ pct : ℚ, ∀ now : Nat, ∀ ls : Option Nat,
      rowColorAction pct =
        ((determineAction pct now ls).2.1, (determineAction pct now ls).1)) ∧
    (∀ df_a df_b : Series, ∀ sharesRead : ℚ × ℚ, ∀ now : Nat,
        ∀ st : MonitorState, ∀ sf : ℚ,
      monitorScaleFactor (align df_a df_b) = .ok sf →
      ∃ lr, (compute_and_log df_a df_b sharesRead now st).last_row = some lr ∧
        ((compute_and_log df_a df_b sharesRead now st).df_tail.getLastD
          (emptyRow, "", "")).2.1 = lr.action) := by
  refine ⟨fun pct now ls => rowColorAction_eq_determineAction pct now ls, ?_⟩
  intro df_a df_b sharesRead now st sf hsf
  have hcne : align df_a df_b ≠ [] := by
    intro h
    rw [h] at hsf
    exact Except.noConfusion hsf
  have ha : df_a ≠ [] := by
    rintro rfl
    exact hcne rfl
  have hb : df_b ≠ [] := by
    rintro rfl
    exact hcne (align_nil_right df_a)
  rw [compute_and_log_ok df_a df_b sharesRead now st sf ha hb hcne hsf]
  refine ⟨_, rfl, ?_⟩
  have hrows : monitorRows sf (align df_a df_b) ≠ [] := by
    intro h
    have hlen := congrArg List.length h
    simp only [monitorRows, List.length_map, List.length_nil] at hlen
    exact hcne (List.length_eq_zero.mp hlen)
  have htail : pdTail 200 (monitorRows sf (align df_a df_b)) ≠ [] :=
    pdTail_ne_nil 200 (by norm_num) _ hrows
  simp only [rowsWithColors]
  rw [getLastD_map _ _ htail emptyRow (emptyRow, "", "")]
  rw [rowColorAction_eq_determineAction
    ((pdTail 200 (monitorRows sf (align df_a df_b))).getLastD
      emptyRow).spreadPct now st.last_strong_time]

/-- Witness for C10_row_action_matches_snapshot on a one-point overlap. -/
theorem C10_row_action_matches_snapshot_witness :
    ∃ lr, (compute_and_log [(1, 100)] [(1, 50)] (0, 0) 7
        { last_row := none, last_strong_time := none, df_tail := [],
          shares := (0, 0) }).last_row = some lr ∧
      ((compute_and_log [(1, 100)] [(1, 50)] (0, 0) 7
        { last_row := none, last_strong_time := none, df_tail := [],
          shares := (0, 0) }).df_tail.getLastD
        (emptyRow, "", "")).2.1 = lr.action :=
  C10_row_action_matches_snapshot.2 [(1, 100)] [(1, 50)] (0, 0) 7
    { last_row := none, last_strong_time := none, df_tail := [],
      shares := (0, 0) } (100 / 50) rfl

end VooVti
